import Mathlib

/-!
Verification of the MIR builder type rules of the firefly compiler
(`src/compiler/syntax_ssa/src/ir/builders.rs`), the known-set algebra of the scope
normalizer (`src/compiler/syntax_erl/src/passes/transforms/cst/mod.rs`)
and the typed-op lowerer
(`src/compiler/codegen/src/passes/core_to_mlir/builder/function.rs`),
as a shallow embedding in Lean.

Naming follows the source wherever Lean allows; where a Rust name collides
with a Lean keyword (`Type`, `fun`, `private`, `return`) a nearby name is
used and noted in a comment.
-/

namespace Firefly

/-- `PrimitiveType` from `firefly_syntax_base` as used by the sources here
(`void, i1, i8, i16, i32, i64, isize, f64, pointer, struct, array`). -/
inductive PrimitiveType where
  | void
  | i1
  | i8
  | i16
  | i32
  | i64
  | isize
  | f64
  | ptr (inner : PrimitiveType)
  | structOf (fields : List PrimitiveType)
  | array (inner : PrimitiveType) (arity : Nat)

/-- `TermType` from `firefly_syntax_base` as used by the sources here.
Constructor `tfun` stands for `Fun` in the source (`fun` is reserved in Lean);
atom payloads are interned symbols, represented as `String`.
Parameter payloads (tuple element types, list element type, fun signature)
are carried exactly where the builder/lowerer sources mention them. -/
inductive TermType where
  | any
  | bool
  | integer
  | float
  | number
  | atom
  | binary
  | bitstring
  | nil
  | cons
  | list (inner : Option TermType)
  | maybeImproperList
  | tuple (elems : Option (List TermType))
  | map
  | reference
  | port
  | pid
  | tfun (sig : Option Nat)

/-- `Type` from `firefly_syntax_base` (named `IrType` here since `Type` is a
Lean keyword): primitives, term types, and the opaque auxiliary types that
the builders and the lowerer mention
(`Invalid, NoReturn, Exception, ExceptionTrace, RecvContext, RecvState,
MatchContext`). -/
inductive IrType where
  | invalid
  | noReturn
  | primitive (p : PrimitiveType)
  | term (t : TermType)
  | exception
  | exceptionTrace
  | recvContext
  | recvState
  | matchContext

/-- Modelled from the spec: `TermType::is_numeric` (the crate
`firefly_syntax_base` defining it is not under `src/`). The type
algebra of the spec lists `numeric (int∪float)` among term types, so the numeric term
types are integer, float and their union `number`. -/
def TermType.is_numeric : TermType → Bool
  | .integer => true
  | .float => true
  | .number => true
  | _ => false

/-- Modelled from the spec: `TermType::coerce_to_numeric_with` (defined in
`firefly_syntax_base`, not under `src/`). Spec §3: "Arithmetic type rules
coerce two term operands to their numeric join"; glossary: "Numeric join —
combine two term numeric types yielding integer if both are integer,
otherwise float". -/
def TermType.coerce_to_numeric_with (lty rty : TermType) : TermType :=
  match lty, rty with
  | .integer, .integer => .integer
  | _, _ => .float

/-- Modelled from the spec: the unary `TermType::coerce_to_numeric`
(defined in `firefly_syntax_base`, not under `src/`): the numeric join of a
single operand type with itself (integer stays integer, otherwise float). -/
def TermType.coerce_to_numeric (ty : TermType) : TermType :=
  match ty with
  | .integer => .integer
  | _ => .float

/-- Modelled from the spec: `Type::as_term` (defined in
`firefly_syntax_base`, not under `src/`): projects the term-type subtree;
the builders call `.as_term().unwrap()`, so the `none` case models the
panic on non-term types. -/
def IrType.as_term : IrType → Option TermType
  | .term t => some t
  | _ => none

/-- `ImmediateTerm` from `firefly_syntax_ssa` (the enum itself lives
outside `src/`; its constructors are those used by `builders.rs`:
`Bool, Integer, Float, Atom, Nil, None`). Float payloads are irrelevant to
every claim and are not carried. -/
inductive ImmediateTerm where
  | bool (b : Bool)
  | integer (i : Int)
  | float
  | atom (a : String)
  | nil
  | none
deriving Repr, BEq, DecidableEq

/-- `Immediate` from `firefly_syntax_ssa` (enum outside `src/`; its
constructors are those used by `builders.rs`). The `Immediate` enum of the older
codegen crate (`Bool, Atom, Integer, Float, Nil, None`) is identified with
the `term`-level constructors, in particular its `Immediate::None` is
`.term .none` here. -/
inductive Immediate where
  | i1 (b : Bool)
  | i8 (i : Int)
  | i16 (i : Int)
  | i32 (i : Int)
  | i64 (i : Int)
  | isize (i : Int)
  | f64
  | term (t : ImmediateTerm)
deriving Repr, BEq, DecidableEq

/-- Modelled from the spec: `Immediate::ty` (defined with the enum outside
`src/`). Machine-width immediates have their primitive types; term
immediates have the corresponding term type (`None` materializes as term
`Any`, matching the `none` builder in `builders.rs` lines 276-284). -/
def Immediate.ty : Immediate → IrType
  | .i1 _ => .primitive .i1
  | .i8 _ => .primitive .i8
  | .i16 _ => .primitive .i16
  | .i32 _ => .primitive .i32
  | .i64 _ => .primitive .i64
  | .isize _ => .primitive .isize
  | .f64 => .primitive .f64
  | .term (.bool _) => .term .bool
  | .term (.integer _) => .term .integer
  | .term .float => .term .float
  | .term (.atom _) => .term .atom
  | .term .nil => .term .nil
  | .term .none => .term .any

/-- SSA value handle (dense integer index, spec §4.2). -/
abbrev Value := Nat

/-- `Opcode` from `firefly_syntax_ssa` (enum outside `src/`): the opcodes
used by `builders.rs` and `function.rs`. -/
inductive Opcode where
  | immInt | immFloat | immBool | immAtom | immNil | immNone | immNull
  | constBigInt | constBinary | constTuple | constList | constMap
  | isNull | cast | trunc | zext
  | icmpEq | icmpNeq | icmpGt | icmpGte | icmpLt | icmpLte
  | br | brIf | brUnless | switch | ret
  | call | callIndirect | enter | enterIndirect
  | isTaggedTuple
  | eq | eqExact | neq | neqExact | gt | gte | lt | lte
  | and | andAlso | or | orElse | xor
  | band | bor | bxor | div | rem | bsl | bsr
  | add | sub | mul | fdiv | neg | not | bnot
  | cons | head | tail | tuple | getElement | setElement | setElementMut
  | listConcat | listSubtract
  | makeFun | unpackEnv
  | recvStart | recvNext | recvPeek | recvPop | recvWait
  | bitsTestTail | bitsMatchStart | bitsMatch | bitsMatchSkip | bitsPush
  | raise | buildStacktrace | matchFail
  | exceptionClass | exceptionReason | exceptionTrace
deriving Repr, BEq, DecidableEq

/-- The slice of the DataFlowGraph the builder type rules consult: the
types of already-defined values, indexed densely (`dfg.value_type(v)`). -/
structure DataFlowGraph where
  value_types : List IrType

/-- `dfg.value_type(v)` (values always resolve in well-formed calls;
out-of-range is `invalid`). -/
def DataFlowGraph.value_type (dfg : DataFlowGraph) (v : Value) : IrType :=
  dfg.value_types.getD v .invalid

/-- Instruction payloads built by the builders used in the claims
(`InstData` variants from `firefly_syntax_ssa`, shapes per spec §4.2). -/
inductive InstData where
  | binaryOp (op : Opcode) (lhs rhs : Value)
  | binaryOpImm (op : Opcode) (arg : Value) (imm : Immediate)
  | unaryOp (op : Opcode) (arg : Value)
  | unaryOpImm (op : Opcode) (imm : Immediate)
deriving Repr, BEq, DecidableEq

/-! ### Builder type rules (`builders.rs`)

Each builder computes the result type at construction time and emits the
instruction data with that type; the embedding returns the pair. The
macro-generated families are embedded as functions of the opcode, exactly
mirroring each macro body, and then instantiated once per generated name
(mirroring lines 952-979 of `builders.rs`). Where the source `unwrap`s or
`assert!`s, the embedding returns `Option` and `none` models the panic. -/

/-- `binary_op!` macro (lines 15-30): two-value form; the result type is
the type of `lhs`. -/
def binary_op_build (op : Opcode) (dfg : DataFlowGraph) (lhs rhs : Value) :
    InstData × IrType :=
  let ty := dfg.value_type lhs
  (.binaryOp op lhs rhs, ty)

/-- `binary_op!` macro (lines 15-30): immediate form; the result type is
the type of `lhs`. -/
def binary_op_imm_build (op : Opcode) (dfg : DataFlowGraph) (lhs : Value)
    (rhs : Immediate) : InstData × IrType :=
  let ty := dfg.value_type lhs
  (.binaryOpImm op lhs rhs, ty)

/-- `binary_bool_op!` macro (lines 31-44): both forms type the result as
term `Bool`. -/
def binary_bool_op_build (op : Opcode) (lhs rhs : Value) : InstData × IrType :=
  (.binaryOp op lhs rhs, .term .bool)

/-- `binary_bool_op!` macro, immediate form (lines 38-41). -/
def binary_bool_op_imm_build (op : Opcode) (lhs : Value) (rhs : Bool) :
    InstData × IrType :=
  (.binaryOpImm op lhs (.term (.bool rhs)), .term .bool)

/-- `binary_int_op!` macro (lines 45-58): both forms type the result as
term `Integer`. -/
def binary_int_op_build (op : Opcode) (lhs rhs : Value) : InstData × IrType :=
  (.binaryOp op lhs rhs, .term .integer)

/-- `binary_int_op!` macro, immediate form (lines 52-55). -/
def binary_int_op_imm_build (op : Opcode) (lhs : Value) (rhs : Int) :
    InstData × IrType :=
  (.binaryOpImm op lhs (.term (.integer rhs)), .term .integer)

/-- `binary_numeric_op!` macro, two-value form (lines 62-68). Note that the
source computes `rty` from `value_type(lhs)` — the lhs value again, not
`rhs`:
```
let lty = self.data_flow_graph().value_type(lhs);
let rty = self.data_flow_graph().value_type(lhs).as_term().unwrap();
let ty = lty.as_term().unwrap().coerce_to_numeric_with(rty);
```
The embedding reproduces that read faithfully. -/
def binary_numeric_op_build (op : Opcode) (dfg : DataFlowGraph)
    (lhs rhs : Value) : Option (InstData × IrType) := do
  let lty := dfg.value_type lhs
  let rty ← (dfg.value_type lhs).as_term
  let ltyT ← lty.as_term
  let ty := ltyT.coerce_to_numeric_with rty
  pure (.binaryOp op lhs rhs, .term ty)

/-- `binary_numeric_op!` macro, immediate form (lines 69-76): here `rty`
is the type of the immediate, and the builder asserts it is numeric. -/
def binary_numeric_op_imm_build (op : Opcode) (dfg : DataFlowGraph)
    (lhs : Value) (rhs : Immediate) : Option (InstData × IrType) := do
  let lty := dfg.value_type lhs
  let rty ← rhs.ty.as_term
  if rty.is_numeric then
    let ltyT ← lty.as_term
    let ty := ltyT.coerce_to_numeric_with rty
    pure (.binaryOpImm op lhs rhs, .term ty)
  else
    none

/-- `unary_bool_op!` macro (lines 80-93). -/
def unary_bool_op_build (op : Opcode) (arg : Value) : InstData × IrType :=
  (.unaryOp op arg, .term .bool)

/-- `unary_int_op!` macro (lines 94-107). -/
def unary_int_op_build (op : Opcode) (arg : Value) : InstData × IrType :=
  (.unaryOp op arg, .term .integer)

/-- `unary_numeric_op!` macro, value form (lines 111-115). -/
def unary_numeric_op_build (op : Opcode) (dfg : DataFlowGraph) (arg : Value) :
    Option (InstData × IrType) := do
  let ty := dfg.value_type arg
  let tyT ← ty.as_term
  pure (.unaryOp op arg, .term tyT.coerce_to_numeric)

/-- `icmp_*` builders, two-value form (lines 391-545): every primitive
integer comparison (`icmp_eq, icmp_neq, icmp_gt, icmp_gte, icmp_lt,
icmp_lte`) is built with result type primitive `I1`. Embedded as one
function over the six icmp opcodes. -/
def icmp_value_build (op : Opcode) (lhs rhs : Value) : InstData × IrType :=
  (.binaryOp op lhs rhs, .primitive .i1)

/-- `icmp_*_imm` builders (lines 402-545): the immediate forms, also built
with result type primitive `I1`. -/
def icmp_imm_build (op : Opcode) (lhs : Value) (imm : Immediate) :
    InstData × IrType :=
  (.binaryOpImm op lhs imm, .primitive .i1)

/-! Instantiations mirroring `builders.rs` lines 952-979. -/

/-- `binary_op!(is_tagged_tuple, Opcode::IsTaggedTuple)` (line 952). -/
def is_tagged_tuple_build := binary_op_build .isTaggedTuple

/-- `binary_op!(eq, Opcode::Eq)` (line 953). -/
def eq_build := binary_op_build .eq

/-- `binary_op!(eq_exact, Opcode::EqExact)` (line 954). -/
def eq_exact_build := binary_op_build .eqExact

/-- `binary_op!(neq, Opcode::Neq)` (line 955). -/
def neq_build := binary_op_build .neq

/-- `binary_op!(neq_exact, Opcode::NeqExact)` (line 956). -/
def neq_exact_build := binary_op_build .neqExact

/-- `binary_op!(gt, Opcode::Gt)` (line 957). -/
def gt_build := binary_op_build .gt

/-- `binary_op!(gte, Opcode::Gte)` (line 958). -/
def gte_build := binary_op_build .gte

/-- `binary_op!(lt, Opcode::Lt)` (line 959). -/
def lt_build := binary_op_build .lt

/-- `binary_op!(lte, Opcode::Lte)` (line 960). -/
def lte_build := binary_op_build .lte

/-- The immediate forms generated by `binary_op!` for the eight term
comparisons (and `is_tagged_tuple`), line by line as above. -/
def eq_imm_build := binary_op_imm_build .eq

/-- `eq_exact_imm` from `binary_op!(eq_exact, ..)`. -/
def eq_exact_imm_build := binary_op_imm_build .eqExact

/-- `neq_imm` from `binary_op!(neq, ..)`. -/
def neq_imm_build := binary_op_imm_build .neq

/-- `neq_exact_imm` from `binary_op!(neq_exact, ..)`. -/
def neq_exact_imm_build := binary_op_imm_build .neqExact

/-- `gt_imm` from `binary_op!(gt, ..)`. -/
def gt_imm_build := binary_op_imm_build .gt

/-- `gte_imm` from `binary_op!(gte, ..)`. -/
def gte_imm_build := binary_op_imm_build .gte

/-- `lt_imm` from `binary_op!(lt, ..)`. -/
def lt_imm_build := binary_op_imm_build .lt

/-- `lte_imm` from `binary_op!(lte, ..)`. -/
def lte_imm_build := binary_op_imm_build .lte

/-- `binary_numeric_op!(add, Opcode::Add)` (line 973), value form. -/
def add_build := binary_numeric_op_build .add

/-- `binary_numeric_op!(sub, Opcode::Sub)` (line 974), value form. -/
def sub_build := binary_numeric_op_build .sub

/-- `binary_numeric_op!(mul, Opcode::Mul)` (line 975), value form. -/
def mul_build := binary_numeric_op_build .mul

/-- `binary_numeric_op!(fdiv, Opcode::Fdiv)` (line 976), value form. -/
def fdiv_build := binary_numeric_op_build .fdiv

/-- `add_imm` from `binary_numeric_op!(add, ..)`. -/
def add_imm_build := binary_numeric_op_imm_build .add

/-- `sub_imm` from `binary_numeric_op!(sub, ..)`. -/
def sub_imm_build := binary_numeric_op_imm_build .sub

/-- `mul_imm` from `binary_numeric_op!(mul, ..)`. -/
def mul_imm_build := binary_numeric_op_imm_build .mul

/-- `fdiv_imm` from `binary_numeric_op!(fdiv, ..)`. -/
def fdiv_imm_build := binary_numeric_op_imm_build .fdiv

/-! ### Bits-match result typing (`builders.rs` lines 1216-1234) -/

/-- Endianness of a binary entry specifier (from `firefly_binary`, outside
`src/`; only the tag matters to the claims). -/
inductive Endianness where
  | big
  | little
  | native
deriving Repr, BEq, DecidableEq

/-- `BinaryEntrySpecifier` from `firefly_binary` (outside `src/`); the
constructors and the `unit` field of `Binary` are exactly those matched by
`BitsMatch` in `builders.rs` lines 1223-1231. -/
inductive BinaryEntrySpecifier where
  | integer (signed : Bool) (endianness : Endianness) (unit : Nat)
  | float (endianness : Endianness) (unit : Nat)
  | utf8
  | utf16 (endianness : Endianness)
  | utf32 (endianness : Endianness)
  | binary (unit : Nat)
deriving Repr, BEq, DecidableEq

/-- The result type computed by the `BitsMatch` builder
(`builders.rs` lines 1223-1231), matching on the entry specifier. -/
def BitsMatch_result_ty (spec : BinaryEntrySpecifier) : IrType :=
  match spec with
  | .integer _ _ _ => .term .integer
  | .float _ _ => .term .float
  | .utf8 | .utf16 _ | .utf32 _ => .term .integer
  | .binary 8 => .term .binary
  | .binary _ => .term .bitstring

/-! ### The known-set algebra of the scope normalizer
(`syntax_erl/src/passes/transforms/cst/mod.rs`, lines 311-425)

`RedBlackTreeSet<Ident>` is embedded as `Finset Nat` (idents are interned
symbols; only set structure matters). `Vector` (a persistent vector with
`push_back`, `last`, `drop_last`) is embedded as `List` with the end of the
list as the back. -/

/-- Interned identifier. -/
abbrev Ident := Nat

/-- The `Known` record (`cst/mod.rs` lines 311-316). -/
structure Known where
  base : List (Finset Ident)
  ks : Finset Ident
  prev_ks : List (Finset Ident)
deriving DecidableEq

/-- `Known::start_group` (lines 334-337): push empty onto `prev_ks` and
the current `ks` onto `base`. -/
def Known.start_group (k : Known) : Known :=
  { k with prev_ks := k.prev_ks ++ [∅], base := k.base ++ [k.ks] }

/-- `Known::end_body` (lines 339-342): replace the top of `prev_ks` with
the current `ks`. -/
def Known.end_body (k : Known) : Known :=
  { k with prev_ks := k.prev_ks.dropLast ++ [k.ks] }

/-- `Known::end_group` (lines 347-350): pop both stacks. -/
def Known.end_group (k : Known) : Known :=
  { k with base := k.base.dropLast, prev_ks := k.prev_ks.dropLast }

/-- `Known::union` (lines 355-365): a new `Known` whose `ks` also holds
`vars`. -/
def Known.union (k : Known) (vars : Finset Ident) : Known :=
  { base := k.base, ks := k.ks ∪ vars, prev_ks := k.prev_ks }

/-- `Known::bind` (lines 370-389): remove `vars` from the top of
`prev_ks`; when `prev_ks` is empty (`last()` is `None`) the receiver is
returned unchanged (`self.clone()`). -/
def Known.bind (k : Known) (vars : Finset Ident) : Known :=
  match k.prev_ks.getLast? with
  | Option.none => k
  | Option.some last =>
      { base := k.base, ks := k.ks, prev_ks := k.prev_ks.dropLast ++ [last \ vars] }

/-- `Known::known_in_fun` (lines 394-424): when either stack is empty the
receiver is returned unchanged; otherwise the resulting `ks` is the current
`ks` minus the top of `prev_ks` plus the top of `base`, and both stacks
are emptied. -/
def Known.known_in_fun (k : Known) : Known :=
  if k.base.isEmpty || k.prev_ks.isEmpty then k
  else
    let prev_ks := k.prev_ks.getLast?.getD ∅
    let base := k.base.getLast?.getD ∅
    { base := [], prev_ks := [], ks := (k.ks \ prev_ks) ∪ base }

/-! ### The typed-op lowerer (`codegen/src/passes/core_to_mlir/builder/function.rs`)

The MLIR target dialect (CIR) is external to the repository; it is
embedded by its contract: types are a flat enumeration, values are
symbolic terms that record how they were produced (block argument /
translated core value, cast, null, materialized constant, op result), and
the `build_*` builder methods are constructors of an emitted-operation
type. -/

/-- Target dialect types as produced by `CirBuilder::get_*_type` calls in
`function.rs`. -/
inductive MlirType where
  | i1
  | i8
  | i16
  | i32
  | i64
  | index
  | f64
  | noneTy
  | cirBool
  | cirAtom
  | cirIsize
  | cirFloat
  | cirNil
  | cirNone
  | cirTerm
  | cirInteger
  | cirNumber
deriving Repr, BEq, DecidableEq

/-- Symbolic MLIR values as the lowerer produces them: a translated core
value of known type, the result of a cast op, the result of a null op, a
materialized immediate constant, or the result of a stacktrace op. -/
inductive MlirValue where
  | fromCore (v : Value) (ty : MlirType)
  | castOf (arg : MlirValue) (ty : MlirType)
  | nullOf (ty : MlirType)
  | constOf (imm : Immediate) (ty : MlirType)
  | stacktraceRes
deriving Repr, BEq, DecidableEq

/-- `get_type()` on a symbolic MLIR value. -/
def MlirValue.type : MlirValue → MlirType
  | .fromCore _ ty => ty
  | .castOf _ ty => ty
  | .nullOf ty => ty
  | .constOf _ ty => ty
  | .stacktraceRes => .cirTerm

/-- Dialect operations emitted by `build_primop`
(`function.rs` lines 938-985): the `builder.build_*` calls. The dialect
also offers `build_recv_peek` (constructor `recv_peek`), which
`build_primop` never emits. -/
inductive CirOp where
  | recv_start (arg : MlirValue)
  | recv_next (arg : MlirValue)
  | recv_peek (arg : MlirValue)
  | recv_pop (arg : MlirValue)
  | yieldOp
  | raise (cls reason trace : MlirValue)
  | stacktrace
  | exception_class (arg : MlirValue)
  | exception_reason (arg : MlirValue)
  | exception_trace (arg : MlirValue)
deriving Repr, BEq, DecidableEq

/-- The atom `error` (`symbols::Error`). -/
def errorSymbol : Immediate := .term (.atom "error")

/-- `immediate_to_constant` (`function.rs` lines 106-149): materializes an
immediate via a per-type constant op. The codegen-era `Immediate` has only
the term-level constructors; the machine-width ones cannot reach it and
map to `cirNone` here (unreachable in lowerings from the builders). -/
def immediate_to_constant (imm : Immediate) : MlirValue :=
  match imm with
  | .term (.bool _) => .constOf imm .cirBool
  | .term (.atom _) => .constOf imm .cirAtom
  | .term (.integer _) => .constOf imm .cirIsize
  | .term .float => .constOf imm .cirFloat
  | .term .nil => .constOf imm .cirNil
  | .term .none => .constOf imm .cirNone
  | _ => .constOf imm .cirNone

/-- `build_primop` (`function.rs` lines 938-985): the emitted dialect
operations for a primop instruction, in emission order. `values` is the
core-value to MLIR-value map; `args` is `dfg.inst_args(inst)`. Unmatched
opcode / missing argument (source `args[i]` indexing) is `none`. -/
def build_primop (values : Value → MlirValue) (op : Opcode)
    (args : List Value) : Option (List CirOp) :=
  match op, args with
  | .matchFail, a0 :: _ =>
      some [.stacktrace,
            .raise (immediate_to_constant errorSymbol) (values a0) .stacktraceRes]
  | .recvStart, a0 :: _ => some [.recv_start (values a0)]
  | .recvNext, a0 :: _ => some [.recv_next (values a0)]
  | .recvPeek, a0 :: _ => some [.recv_next (values a0)]
  | .recvPop, a0 :: _ => some [.recv_pop (values a0)]
  | .recvWait, _ => some [.yieldOp]
  | .raise, a0 :: a1 :: a2 :: _ =>
      some [.raise (values a0) (values a1) (values a2)]
  | .buildStacktrace, _ => some [.stacktrace]
  | .exceptionClass, a0 :: _ => some [.exception_class (values a0)]
  | .exceptionReason, a0 :: _ => some [.exception_reason (values a0)]
  | .exceptionTrace, a0 :: _ => some [.exception_trace (values a0)]
  | _, _ => none

/-- `RetImm` instruction payload (`builders.rs` lines 1082-1094; the `op`
field is always `Opcode::Ret`). -/
structure RetImmData where
  imm : Immediate
  arg : Value
deriving Repr, BEq, DecidableEq

/-- `ret_ok` (`builders.rs` lines 627-629): `RetImm(Immediate::I1(false), v)`. -/
def ret_ok (returning : Value) : RetImmData :=
  { imm := .i1 false, arg := returning }

/-- `ret_err` (`builders.rs` lines 631-633): `RetImm(Immediate::I1(true), v)`. -/
def ret_err (returning : Value) : RetImmData :=
  { imm := .i1 true, arg := returning }

/-- `build_ret_imm` (`function.rs` lines 819-847). `func_result_types` is
the MLIR result type list of the current function. The source asserts
`op.imm == Immediate::None` (the codegen-era `None`, i.e. `.term .none`
here); a failed assertion, like an absent result type, is `none`. On
success the emitted `func.return` operand list is returned: the payload
value (cast to the first function result type when it differs), then a
null of the second function result type. -/
def build_ret_imm (func_result_types : List MlirType)
    (values : Value → MlirValue) (op : RetImmData) : Option (List MlirValue) :=
  let arg := values op.arg
  if op.imm = Immediate.term .none then
    match func_result_types.get? 0, func_result_types.get? 1 with
    | some expected_arg_type, some expected_imm_type =>
        let arg := if arg.type = expected_arg_type then arg
                   else .castOf arg expected_arg_type
        some [arg, .nullOf expected_imm_type]
    | _, _ => none
  else
    none

/-! ### Branch lowering (`function.rs` lines 849-915) -/

/-- Block handle in the target region. -/
abbrev BlockId := Nat

/-- `Br` instruction payload (`builders.rs` lines 1034-1048): opcode
(`Br`, `BrIf` or `BrUnless`), destination block and argument list. -/
structure BrData where
  op : Opcode
  destination : BlockId
  args : List Value
deriving Repr, BEq, DecidableEq

/-- Terminators emitted by `build_br`: `build_branch` and
`build_cond_branch`. -/
inductive CirTerminator where
  | branch (dest : BlockId) (args : List MlirValue)
  | cond_branch (cond : MlirValue) (then_dest : BlockId)
      (then_args : List MlirValue) (else_dest : BlockId)
      (else_args : List MlirValue)
deriving Repr, BEq, DecidableEq

/-- The lowerer state `build_br` reads and writes: the block list of the
region (layout order), the current block, and a fresh-id source for blocks
created by `OwnedBlock::default()`. -/
structure BrState where
  region : List BlockId
  current_block : BlockId
  next_block : BlockId
deriving Repr, BEq, DecidableEq

/-- `Region::insert_after(after, b)`: insert `b` immediately after the
block `after` in the region. -/
def insertAfter (region : List BlockId) (after b : BlockId) : List BlockId :=
  match region with
  | [] => []
  | x :: xs => if x = after then x :: b :: xs else x :: insertAfter xs after b

/-- The per-argument mapping of branch arguments to the parameter types
of the destination (`function.rs` lines 873-880): cast when the type
differs, pass through otherwise; `dest.get_argument(index)` out of range
is `none`. -/
def map_branch_args (dest_param_types : List MlirType) :
    List MlirValue → Option (List MlirValue)
  | [] => some []
  | v :: vs => do
      let rest ← map_branch_args dest_param_types.tail vs
      let expected ← dest_param_types.head?
      pure ((if v.type = expected then v else .castOf v expected) :: rest)

/-- `build_br` (`function.rs` lines 849-915). `dest_param_types` is the
argument type list of the MLIR block for `op.destination`. For `Br`, the
mapped arguments feed a direct `build_branch` and the state is unchanged.
For `BrIf`/`BrUnless`, the first argument is the condition (cast to `i1`
when needed), a new block is inserted immediately after the current block
in the region, a `build_cond_branch` is emitted — destination (with the
remaining mapped args) as then-target for `BrIf`, swapped for `BrUnless`,
the new block always with no args — and building continues in the new
block. -/
def build_br (dest_param_types : List MlirType) (values : Value → MlirValue)
    (st : BrState) (op : BrData) : Option (BrState × CirTerminator) :=
  match op.op with
  | .br => do
      let mapped_args ← map_branch_args dest_param_types (op.args.map values)
      pure (st, .branch op.destination mapped_args)
  | .brIf | .brUnless =>
      match op.args.map values with
      | [] => none
      | cond :: rest => do
          let cond := if cond.type ≠ MlirType.i1 then MlirValue.castOf cond .i1
                      else cond
          let dest_args ← map_branch_args dest_param_types rest
          let split_block := st.next_block
          let region := insertAfter st.region st.current_block split_block
          let t : CirTerminator :=
            if op.op = Opcode.brIf then
              .cond_branch cond op.destination dest_args split_block []
            else
              .cond_branch cond split_block [] op.destination dest_args
          pure ({ region := region, current_block := split_block,
                  next_block := split_block + 1 }, t)
  | _ => none

/-! ### Direct-op vs runtime-call classification
(`function.rs` `build_unary_op` lines 221-251 and `build_binary_op`
lines 352-462) -/

/-- How an op lowers: a direct dialect op (named by the op name of its
`build_*` method) or a call to a runtime function named by its canonical symbol. -/
inductive OpLowering where
  | direct (dialect_op : String)
  | runtime_call (symbol : String)
deriving Repr, BEq, DecidableEq

/-- The opcode dispatch of `build_binary_op` (`function.rs` lines
362-455): which dialect op or runtime symbol each two-value binary op
lowers to. -/
def build_binary_op_lowering (op : Opcode) : Option OpLowering :=
  match op with
  | .cons => some (.direct "cons")
  | .getElement => some (.direct "get_element")
  | .listConcat => some (.runtime_call "erlang:++/2")
  | .listSubtract => some (.runtime_call "erlang:--/2")
  | .eq => some (.runtime_call "erlang:==/2")
  | .eqExact => some (.runtime_call "erlang:=:=/2")
  | .neq => some (.runtime_call "erlang:/=/2")
  | .neqExact => some (.runtime_call "erlang:=/=/2")
  | .gt => some (.runtime_call "erlang:>/2")
  | .gte => some (.runtime_call "erlang:>=/2")
  | .lt => some (.runtime_call "erlang:</2")
  | .lte => some (.runtime_call "erlang:=</2")
  | .and => some (.direct "and")
  | .andAlso => some (.direct "andalso")
  | .or => some (.direct "or")
  | .orElse => some (.direct "orelse")
  | .xor => some (.direct "xor")
  | .band => some (.runtime_call "erlang:band/2")
  | .bor => some (.runtime_call "erlang:bor/2")
  | .bxor => some (.runtime_call "erlang:bxor/2")
  | .bsl => some (.runtime_call "erlang:bsl/2")
  | .bsr => some (.runtime_call "erlang:bsr/2")
  | .div => some (.runtime_call "erlang:div/2")
  | .rem => some (.runtime_call "erlang:rem/2")
  | .add => some (.runtime_call "erlang:+/2")
  | .sub => some (.runtime_call "erlang:-/2")
  | .mul => some (.runtime_call "erlang:*/2")
  | .fdiv => some (.runtime_call "erlang:fdiv/2")
  | _ => none

/-- The opcode dispatch of `build_unary_op` (`function.rs` lines
230-243). -/
def build_unary_op_lowering (op : Opcode) : Option OpLowering :=
  match op with
  | .isNull => some (.direct "is_null")
  | .head => some (.direct "head")
  | .tail => some (.direct "tail")
  | .neg => some (.runtime_call "erlang:-/1")
  | .not => some (.direct "not")
  | .bnot => some (.runtime_call "erlang:bnot/1")
  | _ => none

/-! ### Function declaration visibility (`function.rs` lines 82-104) -/

/-- The visibility flags a `syntax_core::Signature` exposes through
`is_public()` / `is_externally_defined()` (the `Signature` type lives
outside `src/`; modelled from the spec visibility set
`{public, private, externally-defined}` and the two predicates the
source calls). -/
structure SigVisibility where
  is_public : Bool
  is_externally_defined : Bool
deriving Repr, BEq, DecidableEq

/-- MLIR symbol visibility (`priv` stands for `Private`; `private` is
reserved in Lean). -/
inductive MlirVisibility where
  | public
  | priv
deriving Repr, BEq, DecidableEq

/-- The visibility computation in `declare_function` (`function.rs`
lines 92-96): Public when the signature is public and not
externally-defined, Private otherwise. -/
def declare_function_visibility (vis : SigVisibility) : MlirVisibility :=
  if vis.is_public && !vis.is_externally_defined then .public else .priv

/-! ## Theorems -/

/-- C7: for every `BitsMatch` instruction, the result type assigned by the
builder is determined by the tag of the binary entry specifier: integer
for integer specs, float for float specs, binary for binary specs with
unit 8, and bitstring for binary specs with any other unit. -/
theorem C7_bits_match_result_type :
    (∀ sg en u, BitsMatch_result_ty (.integer sg en u) = .term .integer) ∧
    (∀ en u, BitsMatch_result_ty (.float en u) = .term .float) ∧
    BitsMatch_result_ty (.binary 8) = .term .binary ∧
    (∀ u, u ≠ 8 → BitsMatch_result_ty (.binary u) = .term .bitstring) := by
  refine ⟨fun _ _ _ => rfl, fun _ _ => rfl, rfl, ?_⟩
  intro u hu
  unfold BitsMatch_result_ty
  split <;> rename_i heq <;> cases heq <;> first | rfl | exact absurd rfl hu

/-- Witness for C7 at a concrete non-8 unit. -/
theorem C7_bits_match_result_type_witness :
    (1 : Nat) ≠ 8 ∧ BitsMatch_result_ty (.binary 1) = .term .bitstring :=
  ⟨by decide, C7_bits_match_result_type.2.2.2 1 (by decide)⟩

/-- C9: the emitted target function is marked Public if and only if the
signature visibility is public and not externally-defined; in particular
a signature that is both public and externally-defined is declared
Private. -/
theorem C9_declare_function_visibility :
    ∀ vis : SigVisibility,
      (declare_function_visibility vis = .public ↔
        vis.is_public = true ∧ vis.is_externally_defined = false) ∧
      (vis.is_public = true → vis.is_externally_defined = true →
        declare_function_visibility vis = .priv) := by
  intro vis
  rcases vis with ⟨p, e⟩
  cases p <;> cases e <;> simp [declare_function_visibility]

/-- Witness for C9: a public, externally-defined signature is declared
Private. -/
theorem C9_declare_function_visibility_witness :
    declare_function_visibility ⟨true, true⟩ = .priv :=
  (C9_declare_function_visibility ⟨true, true⟩).2 rfl rfl

/-- C5: for every `Known` state whose `base` and `prev_ks` stacks are both
non-empty, `known_in_fun` (the `enter_fun` operation) returns a state
whose known set equals `ks` minus the top of `prev_ks` plus the top of
`base`. -/
theorem C5_known_in_fun (k : Known) (hb : k.base ≠ []) (hp : k.prev_ks ≠ []) :
    (k.known_in_fun).ks =
      (k.ks \ (k.prev_ks.getLast?.getD ∅)) ∪ (k.base.getLast?.getD ∅) := by
  have hb2 : k.base.isEmpty = false := by
    cases h : k.base with
    | nil => exact absurd h hb
    | cons x xs => rfl
  have hp2 : k.prev_ks.isEmpty = false := by
    cases h : k.prev_ks with
    | nil => exact absurd h hp
    | cons x xs => rfl
  unfold Known.known_in_fun
  rw [hb2, hp2]
  rfl

/-- Witness for C5 at a concrete state. -/
theorem C5_known_in_fun_witness :
    ((Known.mk [{1}] {1, 2} [{2}]).known_in_fun).ks =
      (({1, 2} : Finset Ident) \ (([{2}] : List (Finset Ident)).getLast?.getD ∅)) ∪
        (([{1}] : List (Finset Ident)).getLast?.getD ∅) :=
  C5_known_in_fun (Known.mk [{1}] {1, 2} [{2}]) (by decide) (by decide)

/-- C10: for every `Known` state and variable set, `bind` returns a state
whose `ks` and `base` components equal those of the receiver and whose
`prev_ks` agrees with the receiver except at the top (same length, same
entries below the top); when `prev_ks` is empty, `bind` returns the
receiver unchanged. -/
theorem C10_bind (k : Known) (vars : Finset Ident) :
    (k.bind vars).ks = k.ks ∧
    (k.bind vars).base = k.base ∧
    (k.bind vars).prev_ks.dropLast = k.prev_ks.dropLast ∧
    (k.bind vars).prev_ks.length = k.prev_ks.length ∧
    (k.prev_ks = [] → k.bind vars = k) := by
  rcases List.eq_nil_or_concat k.prev_ks with h | ⟨l, a, h⟩
  · have hnone : k.prev_ks.getLast? = Option.none := by rw [h]; rfl
    unfold Known.bind
    rw [hnone]
    exact ⟨rfl, rfl, rfl, rfl, fun _ => rfl⟩
  · rw [List.concat_eq_append] at h
    have hsome : k.prev_ks.getLast? = Option.some a := by
      rw [h]; exact List.getLast?_concat l
    unfold Known.bind
    rw [hsome]
    refine ⟨rfl, rfl, ?_, ?_, ?_⟩
    · simp [h, List.dropLast_concat]
    · simp [h]
    · intro hnil
      rw [h] at hnil
      exact absurd hnil (by simp)

/-- Witness for C10: binding on an empty `prev_ks` stack leaves the state
unchanged. -/
theorem C10_bind_witness :
    (Known.mk [] {1} []).bind {1} = Known.mk [] {1} [] :=
  (C10_bind (Known.mk [] {1} []) {1}).2.2.2.2 rfl

/-- C1: the claim says the two-value arithmetic builders assign the
numeric join of the two operand term types. The code computes `rty` from
`value_type(lhs)` — the left operand again — so with lhs of term type
integer and rhs of term type float, `add` is assigned Integer while the
numeric join of the operand types is Float. This theorem evaluates the
embedded builder at that failing input; the immediate form (which reads
the rhs immediate and asserts it numeric, as the claim states) is
evaluated alongside for contrast. -/
theorem C1_add_result_type_at_mixed_operands :
    add_build (DataFlowGraph.mk [.term .integer, .term .float]) 0 1 =
      some (.binaryOp .add 0 1, .term .integer) ∧
    TermType.coerce_to_numeric_with .integer .float = .float ∧
    IrType.term .integer ≠ IrType.term .float ∧
    add_imm_build (DataFlowGraph.mk [.term .integer]) 0 (.term .float) =
      some (.binaryOpImm .add 0 (.term .float), .term .float) := by
  refine ⟨rfl, rfl, ?_, rfl⟩
  intro h
  injection h with h2
  exact TermType.noConfusion h2

/-- C2 counterexample: the term comparison `eq` over an operand of term
type atom is assigned the type of its left operand (term atom), not
primitive i1, refuting the claim that every comparison yields i1. -/
theorem C2_counterexample_eq_not_i1 :
    (eq_build (DataFlowGraph.mk [.term .atom]) 0 0).2 = .term .atom ∧
    IrType.term .atom ≠ IrType.primitive .i1 := by
  refine ⟨rfl, ?_⟩
  intro h
  exact IrType.noConfusion h

/-- C2 (amended): the primitive integer comparisons (`icmp_eq, icmp_neq,
icmp_gt, icmp_gte, icmp_lt, icmp_lte`) are assigned result type i1 in
both the two-value and the immediate form; the term comparisons (`eq,
eq_exact, neq, neq_exact, gt, gte, lt, lte`) are instead assigned the
type of their left operand, in both forms. -/
theorem C2_amended_comparison_result_types :
    (∀ op lhs rhs, (icmp_value_build op lhs rhs).2 = .primitive .i1) ∧
    (∀ op lhs imm, (icmp_imm_build op lhs imm).2 = .primitive .i1) ∧
    (∀ dfg lhs rhs,
      (eq_build dfg lhs rhs).2 = dfg.value_type lhs ∧
      (eq_exact_build dfg lhs rhs).2 = dfg.value_type lhs ∧
      (neq_build dfg lhs rhs).2 = dfg.value_type lhs ∧
      (neq_exact_build dfg lhs rhs).2 = dfg.value_type lhs ∧
      (gt_build dfg lhs rhs).2 = dfg.value_type lhs ∧
      (gte_build dfg lhs rhs).2 = dfg.value_type lhs ∧
      (lt_build dfg lhs rhs).2 = dfg.value_type lhs ∧
      (lte_build dfg lhs rhs).2 = dfg.value_type lhs) ∧
    (∀ dfg lhs imm,
      (eq_imm_build dfg lhs imm).2 = dfg.value_type lhs ∧
      (eq_exact_imm_build dfg lhs imm).2 = dfg.value_type lhs ∧
      (neq_imm_build dfg lhs imm).2 = dfg.value_type lhs ∧
      (neq_exact_imm_build dfg lhs imm).2 = dfg.value_type lhs ∧
      (gt_imm_build dfg lhs imm).2 = dfg.value_type lhs ∧
      (gte_imm_build dfg lhs imm).2 = dfg.value_type lhs ∧
      (lt_imm_build dfg lhs imm).2 = dfg.value_type lhs ∧
      (lte_imm_build dfg lhs imm).2 = dfg.value_type lhs) :=
  ⟨fun _ _ _ => rfl, fun _ _ _ => rfl,
   fun _ _ _ => ⟨rfl, rfl, rfl, rfl, rfl, rfl, rfl, rfl⟩,
   fun _ _ _ => ⟨rfl, rfl, rfl, rfl, rfl, rfl, rfl, rfl⟩⟩

/-- C4 counterexample: the `recv-peek` primop is lowered to the dialect
`recv_next` op, not to the distinct `recv_peek` op the claim requires, so
the mapping from receive primops to dialect ops is not one-to-one. -/
theorem C4_counterexample_recv_peek :
    build_primop (fun v => .fromCore v .cirTerm) .recvPeek [0] =
      some [.recv_next (.fromCore 0 .cirTerm)] ∧
    CirOp.recv_next (.fromCore 0 .cirTerm) ≠
      CirOp.recv_peek (.fromCore 0 .cirTerm) ∧
    build_primop (fun v => .fromCore v .cirTerm) .recvPeek [0] =
      build_primop (fun v => .fromCore v .cirTerm) .recvNext [0] := by
  exact ⟨rfl, by decide, rfl⟩

/-- C4 (amended): `recv-start`, `recv-next` and `recv-pop` lower to their
distinct dialect counterparts and `recv-wait` lowers to a cooperative
yield, but `recv-peek` lowers to the same dialect op as `recv-next`
(`recv_next`), so the mapping is not one-to-one. -/
theorem C4_amended_recv_primop_lowering :
    ∀ (values : Value → MlirValue) (v : Value),
      build_primop values .recvStart [v] = some [.recv_start (values v)] ∧
      build_primop values .recvNext [v] = some [.recv_next (values v)] ∧
      build_primop values .recvPeek [v] = some [.recv_next (values v)] ∧
      build_primop values .recvPop [v] = some [.recv_pop (values v)] ∧
      build_primop values .recvWait [v] = some [.yieldOp] :=
  fun _ _ => ⟨rfl, rfl, rfl, rfl, rfl⟩

/-- C8: every arithmetic, bitwise, comparison and list binary op that the
lowerer does not map to a direct dialect op is lowered to a call to the
runtime function with the canonical `erlang:op/arity` symbol, bit-exact
as listed in the spec; likewise the unary `bnot` and negation. -/
theorem C8_runtime_call_symbols :
    build_binary_op_lowering .add = some (.runtime_call "erlang:+/2") ∧
    build_binary_op_lowering .sub = some (.runtime_call "erlang:-/2") ∧
    build_binary_op_lowering .mul = some (.runtime_call "erlang:*/2") ∧
    build_binary_op_lowering .fdiv = some (.runtime_call "erlang:fdiv/2") ∧
    build_binary_op_lowering .div = some (.runtime_call "erlang:div/2") ∧
    build_binary_op_lowering .rem = some (.runtime_call "erlang:rem/2") ∧
    build_binary_op_lowering .band = some (.runtime_call "erlang:band/2") ∧
    build_binary_op_lowering .bor = some (.runtime_call "erlang:bor/2") ∧
    build_binary_op_lowering .bxor = some (.runtime_call "erlang:bxor/2") ∧
    build_binary_op_lowering .bsl = some (.runtime_call "erlang:bsl/2") ∧
    build_binary_op_lowering .bsr = some (.runtime_call "erlang:bsr/2") ∧
    build_binary_op_lowering .eq = some (.runtime_call "erlang:==/2") ∧
    build_binary_op_lowering .eqExact = some (.runtime_call "erlang:=:=/2") ∧
    build_binary_op_lowering .neq = some (.runtime_call "erlang:/=/2") ∧
    build_binary_op_lowering .neqExact = some (.runtime_call "erlang:=/=/2") ∧
    build_binary_op_lowering .lt = some (.runtime_call "erlang:</2") ∧
    build_binary_op_lowering .lte = some (.runtime_call "erlang:=</2") ∧
    build_binary_op_lowering .gt = some (.runtime_call "erlang:>/2") ∧
    build_binary_op_lowering .gte = some (.runtime_call "erlang:>=/2") ∧
    build_binary_op_lowering .listConcat = some (.runtime_call "erlang:++/2") ∧
    build_binary_op_lowering .listSubtract = some (.runtime_call "erlang:--/2") ∧
    build_unary_op_lowering .bnot = some (.runtime_call "erlang:bnot/1") ∧
    build_unary_op_lowering .neg = some (.runtime_call "erlang:-/1") :=
  ⟨rfl, rfl, rfl, rfl, rfl, rfl, rfl, rfl, rfl, rfl, rfl, rfl, rfl, rfl, rfl,
   rfl, rfl, rfl, rfl, rfl, rfl, rfl, rfl⟩

/-- C3 counterexample: `ret_ok(v)` produces `RetImm` with immediate
`I1(false)`, but `build_ret_imm` asserts the immediate is `None`, so the
lowerer rejects it (emits nothing) instead of emitting the claimed
two-result return; moreover the claim has the operand order backwards
(on the accepted `None` immediate the payload is the first operand and
the materialized null the second). -/
theorem C3_counterexample_ret_ok_rejected :
    (ret_ok 0).imm = Immediate.i1 false ∧
    build_ret_imm [MlirType.i1, MlirType.index]
      (fun v => MlirValue.fromCore v .index) (ret_ok 0) = Option.none := by
  exact ⟨rfl, rfl⟩

/-- C3 (amended): `build_ret_imm` accepts only `RetImm` whose immediate
is `None` (so the `I1` flag immediates produced by `ret_ok`/`ret_err` are
rejected by the assertion); on an accepted instruction it emits a
two-operand return whose first operand is the payload value, cast to the
first result type of the function when the types differ, and whose
second operand is a materialized typed null of the second result type. -/
theorem C3_amended_build_ret_imm :
    (∀ frt (values : Value → MlirValue) (op : RetImmData),
       op.imm ≠ Immediate.term .none →
       build_ret_imm frt values op = Option.none) ∧
    (∀ (frt : List MlirType) (values : Value → MlirValue) (op : RetImmData)
       (t0 t1 : MlirType),
       op.imm = Immediate.term .none →
       frt.get? 0 = some t0 → frt.get? 1 = some t1 →
       build_ret_imm frt values op =
         some [if (values op.arg).type = t0 then values op.arg
               else .castOf (values op.arg) t0,
               .nullOf t1]) := by
  constructor
  · intro frt values op himm
    unfold build_ret_imm
    rw [if_neg himm]
  · intro frt values op t0 t1 himm h0 h1
    unfold build_ret_imm
    rw [if_pos himm, h0, h1]

/-- Witness for C3 (amended): a concrete accepted `RetImm`. -/
theorem C3_amended_build_ret_imm_witness :
    build_ret_imm [MlirType.cirTerm, MlirType.cirTerm]
      (fun v => MlirValue.fromCore v .cirTerm)
      (RetImmData.mk (Immediate.term .none) 0) =
      some [MlirValue.fromCore 0 .cirTerm, MlirValue.nullOf .cirTerm] :=
  C3_amended_build_ret_imm.2 [.cirTerm, .cirTerm]
    (fun v => .fromCore v .cirTerm) (RetImmData.mk (Immediate.term .none) 0)
    .cirTerm .cirTerm rfl rfl rfl

/-- In a region listing the current block exactly once, `insert_after`
places the new block immediately after it. -/
theorem insertAfter_append (pre post : List BlockId) (cur b : BlockId)
    (hpre : cur ∉ pre) :
    insertAfter (pre ++ cur :: post) cur b = pre ++ cur :: b :: post := by
  induction pre with
  | nil => simp [insertAfter]
  | cons x xs ih =>
      have hx : ¬(x = cur) := fun hcontra => hpre (by simp [hcontra])
      have h2 : cur ∉ xs := fun hcontra => hpre (List.mem_cons_of_mem _ hcontra)
      simp [insertAfter, hx, ih h2]

/-- C6: an unconditional `Br` maps directly to a dialect branch with the
mapped arguments and leaves the builder state unchanged; for `BrIf` and
`BrUnless` a new block is inserted immediately after the current block
in the region, a dialect conditional branch is emitted whose targets are
the original destination (with its mapped arguments) and the new block
(with none) — in that order for `BrIf` and swapped for `BrUnless` — and
building continues in the new block. -/
theorem C6_build_br :
    (∀ tys (values : Value → MlirValue) (st : BrState)
       (dest : BlockId) (args : List Value) (margs : List MlirValue),
       map_branch_args tys (args.map values) = some margs →
       build_br tys values st (BrData.mk .br dest args) =
         some (st, .branch dest margs)) ∧
    (∀ tys (values : Value → MlirValue) (st : BrState) (dest : BlockId)
       (args : List Value) (cond : MlirValue) (rest margs : List MlirValue)
       (pre post : List BlockId),
       args.map values = cond :: rest →
       map_branch_args tys rest = some margs →
       st.region = pre ++ st.current_block :: post →
       st.current_block ∉ pre →
       build_br tys values st (BrData.mk .brIf dest args) =
         some (BrState.mk (pre ++ st.current_block :: st.next_block :: post)
                 st.next_block (st.next_block + 1),
               .cond_branch
                 (if cond.type ≠ MlirType.i1 then .castOf cond .i1 else cond)
                 dest margs st.next_block []) ∧
       build_br tys values st (BrData.mk .brUnless dest args) =
         some (BrState.mk (pre ++ st.current_block :: st.next_block :: post)
                 st.next_block (st.next_block + 1),
               .cond_branch
                 (if cond.type ≠ MlirType.i1 then .castOf cond .i1 else cond)
                 st.next_block [] dest margs)) := by
  constructor
  · intro tys values st dest args margs hm
    unfold build_br
    dsimp only
    rw [hm]
    rfl
  · intro tys values st dest args cond rest margs pre post hcr hm hreg hpre
    constructor
    · unfold build_br
      dsimp only
      rw [hcr]
      dsimp only
      rw [hm]
      simp only [hreg,
        insertAfter_append pre post st.current_block st.next_block hpre]
      simp
    · unfold build_br
      dsimp only
      rw [hcr]
      dsimp only
      rw [hm]
      simp only [hreg,
        insertAfter_append pre post st.current_block st.next_block hpre]
      simp

/-- Witness for C6 at a concrete `BrIf` lowering. -/
theorem C6_build_br_witness :
    build_br [] (fun v => MlirValue.fromCore v .i1)
      (BrState.mk [0] 0 1) (BrData.mk .brIf 5 [0]) =
      some (BrState.mk [0, 1] 1 2,
        .cond_branch (MlirValue.fromCore 0 .i1) 5 [] 1 []) :=
  (C6_build_br.2 [] (fun v => .fromCore v .i1) (BrState.mk [0] 0 1) 5 [0]
    (.fromCore 0 .i1) [] [] [] [] rfl rfl rfl (by simp)).1

end Firefly




